import Mathlib

/-!
Verification development for the TI-Nspire MicroPython port's entry file
(`nspire/main.c`): the execution driver (`execute_from_lexer`), the REPL
continuation loop (`do_repl`), `strjoin`, `do_file`, and `main`'s
argument/sys.path handling.  The guest engine (lexer, parser, compiler,
bytecode interpreter, `mp_repl_continue_with_input`) is an external
dependency; its per-run behaviour is modelled as oracle data supplied to the
embedded functions.  C strings are modelled as the `List Char` of their
content (the bytes before the terminating NUL).
-/

namespace MpNspire

/-- Result of `mp_call_function_0` run under `nlr_push`: either a normal
return, or an exception transferred to the nlr buffer, carrying the result of
the `mp_obj_is_subclass_fast(..., &mp_type_SystemExit)` test, the machine
integer `mp_obj_get_int(mp_obj_exception_get_value(exc))` would produce, and
the text `mp_obj_print_exception` would render. -/
inductive ExecResult where
  | ok : ExecResult
  | exc (isSystemExit : Bool) (value : Int) (rendered : List Char) : ExecResult
deriving DecidableEq, Repr

/-- Result of `mp_compile`: `mp_const_none` (compile error) or a callable
module function whose execution behaves as `exec`. -/
inductive CompileResult where
  | err : CompileResult
  | fn (exec : ExecResult) : CompileResult
deriving DecidableEq, Repr

/-- Result of `mp_parse`: `MP_PARSE_NODE_NULL` together with the
`mp_parse_error_kind_t` (numbered), or a parse node whose compilation behaves
as `compiled`. -/
inductive ParseResult where
  | null (errorKind : Nat) : ParseResult
  | node (compiled : CompileResult) : ParseResult
deriving DecidableEq, Repr

/-- The `mp_lexer_t *` argument of `execute_from_lexer`: NULL, or a lexer
with its `source_name` qstr and the behaviour of the rest of the pipeline on
its token stream. -/
inductive LexArg where
  | null : LexArg
  | lexer (sourceName : List Char) (parsed : ParseResult) : LexArg
deriving DecidableEq, Repr

/-- The `mp_parse_input_kind_t` values used by this file:
`MP_PARSE_SINGLE_INPUT` and `MP_PARSE_FILE_INPUT`. -/
inductive InputKind where
  | singleInput : InputKind
  | fileInput : InputKind
deriving DecidableEq, Repr

/-- The two file-static globals `should_exit` and `exit_val` of `main.c`.
`exit_val` is a C `uint`; static storage starts it at zero. -/
structure VMState where
  should_exit : Bool
  exit_val : Nat
deriving DecidableEq, Repr

/-- State at process start: `should_exit = false`, `exit_val = 0`. -/
def initState : VMState := { should_exit := false, exit_val := 0 }

/-- Observable side effects of one `execute_from_lexer` run, in order:
`mp_parse_show_exception`, `mp_lexer_free`, the `MICROPY_PY___FILE__` global
store, entering `mp_compile`, entering `mp_call_function_0`, and
`mp_obj_print_exception`. -/
inductive Effect where
  | showParseException (errorKind : Nat) : Effect
  | lexerFree : Effect
  | storeFileGlobal (name : List Char) : Effect
  | compileStage : Effect
  | executeStage : Effect
  | printException (rendered : List Char) : Effect
deriving DecidableEq, Repr

/-- What one `execute_from_lexer` call returns and does: its `int` return
value, the final values of the `should_exit`/`exit_val` globals, and the
ordered effect trace. -/
structure DriverResult where
  ret : Nat
  state : VMState
  effects : List Effect
deriving DecidableEq, Repr

/-- Conversion of the machine integer extracted from a SystemExit value to
the C `uint` global `exit_val`. -/
def uintOfInt (v : Int) : Nat := (v % (2 : Int) ^ 32).toNat

/-- Shallow embedding of `execute_from_lexer` (main.c lines 74-123).  The
`is_repl` flag is forwarded to `mp_compile` in the source and does not steer
any control flow here; the pipeline's behaviour is carried by `lex`. -/
def execute_from_lexer (lex : LexArg) (input_kind : InputKind) (is_repl : Bool)
    (st : VMState) : DriverResult :=
  match lex with
  | LexArg.null => { ret := 1, state := st, effects := [] }
  | LexArg.lexer sourceName parsed =>
    match parsed with
    | ParseResult.null k =>
        { ret := 1, state := st,
          effects := [Effect.showParseException k, Effect.lexerFree] }
    | ParseResult.node compiled =>
        let pre :=
          (if input_kind = InputKind.fileInput
            then [Effect.storeFileGlobal sourceName] else [])
          ++ [Effect.lexerFree, Effect.compileStage]
        match compiled with
        | CompileResult.err => { ret := 1, state := st, effects := pre }
        | CompileResult.fn exec =>
          match exec with
          | ExecResult.ok =>
              { ret := 0, state := st, effects := pre ++ [Effect.executeStage] }
          | ExecResult.exc isSE v rendered =>
              if isSE then
                { ret := 1,
                  state := { should_exit := true, exit_val := uintOfInt v },
                  effects := pre ++ [Effect.executeStage] }
              else
                { ret := 1, state := st,
                  effects := pre ++ [Effect.executeStage,
                                     Effect.printException rendered] }

/-- Shallow embedding of `strjoin` (main.c lines 125-137): contents of the
returned C string.  `sep_char` is the C `int` parameter; a zero separator is
skipped, any other value is inserted between the two strings. -/
def strjoin (s1 : List Char) (sep_char : Nat) (s2 : List Char) : List Char :=
  if sep_char ≠ 0 then s1 ++ Char.ofNat sep_char :: s2 else s1 ++ s2

/-- Index at which `strjoin` writes the terminating NUL byte: `s[l1 + l2]`,
where `l1` has been incremented past the separator when one was written. -/
def strjoinNulIndex (s1 : List Char) (sep_char : Nat) (s2 : List Char) : Nat :=
  (if sep_char ≠ 0 then s1.length + 1 else s1.length) + s2.length

/-- Oracle behaviour of the external guest engine: the REPL completeness
check `mp_repl_continue_with_input` (true means "incomplete, continue"), the
lexer `mp_lexer_new_from_str_len` builds for a buffered stdin statement, and
the lexer `mp_lexer_new_from_file` builds for a file path. -/
structure Engine where
  continueWithInput : List Char → Bool
  lexOf : List Char → LexArg
  fileLexOf : List Char → LexArg

/-- One observable step of the REPL loop: an `execute_from_lexer` call on a
completed statement, or a match of the `quit` sentinel. -/
inductive ReplEvent where
  | driverCall (stmt : List Char) (result : DriverResult) : ReplEvent
  | quitMatched : ReplEvent
deriving DecidableEq, Repr

/-- Whether a REPL event recorded an `ExitRequested` outcome: a driver call
whose run left `should_exit` set. -/
def ReplEvent.requestedExit : ReplEvent → Bool
  | ReplEvent.driverCall _ r => r.state.should_exit
  | ReplEvent.quitMatched => false

/-- The inner continuation loop of `do_repl` (main.c lines 147-156): while
the completeness check asks for more, read another line from the prompt
stream (`none`, like an exhausted stream, makes `prompt` return NULL and
`break`s) and join it onto the buffer with a newline.  Returns the final
buffered statement and the unconsumed prompt stream. -/
def replContinue (cont : List Char → Bool) :
    List Char → List (Option (List Char)) → List Char × List (Option (List Char))
  | line, input =>
    if cont line then
      match input with
      | [] => (line, [])
      | none :: rest => (line, rest)
      | some line2 :: rest => replContinue cont (strjoin line 10 line2) rest
    else (line, input)

/-- Shallow embedding of `do_repl` (main.c lines 139-167).  The prompt
stream is a list of responses, one consumed per `prompt` call: `none` (or an
exhausted list) is `prompt` returning NULL.  Returns the final
`should_exit`/`exit_val` globals and the trace of REPL events. -/
def do_repl (eng : Engine) : VMState → List (Option (List Char)) → VMState × List ReplEvent
  | st, input =>
    if st.should_exit then (st, [])
    else
      match input with
      | [] => (st, [])
      | none :: _ => (st, [])
      | some line :: rest =>
        let c := replContinue eng.continueWithInput line rest
        if c.1 = "quit".data then
          ({ st with should_exit := true }, [ReplEvent.quitMatched])
        else
          let r := execute_from_lexer (eng.lexOf c.1) InputKind.singleInput true st
          let next := do_repl eng r.state c.2
          (next.1, ReplEvent.driverCall c.1 r :: next.2)
termination_by st input => input.length
decreasing_by
  simp only [List.length_cons]
  refine Nat.lt_succ_of_le ?_
  have H : ∀ (inp : List (Option (List Char))) (l : List Char),
      (replContinue eng.continueWithInput l inp).2.length ≤ inp.length := by
    intro inp
    induction inp with
    | nil =>
        intro l
        rw [replContinue.eq_def]
        by_cases h : eng.continueWithInput l = true <;> simp [h]
    | cons hd tl ih =>
        intro l
        rw [replContinue.eq_def]
        by_cases h : eng.continueWithInput l = true
        · simp only [h, if_true]
          cases hd with
          | none => exact Nat.le_succ _
          | some line2 =>
              simp only [List.length_cons]
              exact Nat.le_trans (ih _) (Nat.le_succ _)
        · simp [h]
  exact H _ _

/-- Shallow embedding of `do_file` (main.c lines 169-172). -/
def do_file (eng : Engine) (file : List Char) (st : VMState) : DriverResult :=
  execute_from_lexer (eng.fileLexOf file) InputKind.fileInput false st

/-- Index into `s` of the last occurrence of `c`, as `strrchr` computes it
(`none` when `strrchr` returns NULL). -/
def strrchrIdx (s : List Char) (c : Char) : Option Nat :=
  match s.reverse.findIdx? (fun x => x == c) with
  | none => none
  | some j => some (s.length - 1 - j)

/-- First `sys.path` entry computed for a script path (main.c lines
217-218): `qstr_from_strn(argv[a], p - argv[a])` with
`p = strrchr(argv[a], '/')`.  When the path has no separator, `strrchr`
returns NULL and `p - argv[a]` is undefined pointer arithmetic, so the
computation has no defined value: modelled as `none`. -/
def scriptDir (path : List Char) : Option (List Char) :=
  match strrchrIdx path '/' with
  | none => none
  | some i => some (path.take i)

/-- Directory extraction as the specification words it: the substring of the
path before the last path separator, and the empty string when no separator
exists. -/
def scriptDirSpec (path : List Char) : List Char :=
  match strrchrIdx path '/' with
  | none => []
  | some i => path.take i

/-- The fixed second `sys.path` entry (main.c line 208). -/
def defaultPathEntry : List Char := "/documents/ndless".data

/-- Observable outcome of one `main` run: the value `main` returns (the
process exit status), whether the "Press any key to exit." acknowledgment
ran, the two `sys.path` entries, the `sys.argv` list, and the REPL event
trace (empty in file mode). -/
structure MainOutcome where
  exitStatus : Int
  pressAnyKey : Bool
  sysPath : List (List Char)
  sysArgv : List (List Char)
  replEvents : List ReplEvent
deriving DecidableEq, Repr

/-- Shallow embedding of `main` (main.c lines 179-248) from `mp_init`
onward: `sys.path` starts as `["", "/documents/ndless"]`; with at least one
argument past the program name, the first is the script (the `for` loop
breaks after it), its directory replaces `sys.path[0]`, all arguments from
it onward become `sys.argv`, and `do_file` runs; otherwise `do_repl` runs
with `ret = 0`.  After a file run (`ret` left ≠ -2, whatever its value) the
"Press any key" acknowledgment runs.  Finally `exit_val` is returned when
`should_exit` is set, else `ret`.  A `none` result marks the undefined
`strrchr` pointer arithmetic on a separator-free script path. -/
def main (eng : Engine) (args : List (List Char))
    (replInput : List (Option (List Char))) : Option MainOutcome :=
  match args with
  | _prog :: script :: restArgs =>
    match scriptDir script with
    | none => none
    | some dir =>
      let r := do_file eng script initState
      some { exitStatus :=
               if r.state.should_exit then (r.state.exit_val : Int) else (r.ret : Int),
             pressAnyKey := true,
             sysPath := [dir, defaultPathEntry],
             sysArgv := script :: restArgs,
             replEvents := [] }
  | _ =>
    let s := do_repl eng initState replInput
    some { exitStatus := if s.1.should_exit then (s.1.exit_val : Int) else 0,
           pressAnyKey := false,
           sysPath := [[], defaultPathEntry],
           sysArgv := [],
           replEvents := s.2 }

/-- A trivial engine: every buffered statement is reported complete and
every lexer construction returns NULL. -/
def engTriv : Engine :=
  { continueWithInput := fun _ => false,
    lexOf := fun _ => LexArg.null,
    fileLexOf := fun _ => LexArg.null }

/-- Engine whose completeness check asks for a continuation line exactly on
the single-line buffer "x", with NULL lexers. -/
def engIncompleteX : Engine :=
  { continueWithInput := fun s => s == "x".data,
    lexOf := fun _ => LexArg.null,
    fileLexOf := fun _ => LexArg.null }

/-- Engine whose file lexer yields a pipeline that parses, compiles and then
raises SystemExit with value 5. -/
def engSysExit5 : Engine :=
  { continueWithInput := fun _ => false,
    lexOf := fun _ => LexArg.null,
    fileLexOf := fun _ =>
      LexArg.lexer ("f.py".data)
        (ParseResult.node (CompileResult.fn (ExecResult.exc true 5 []))) }

/-- Engine whose file lexer yields a pipeline that parses, compiles and then
raises SystemExit with value 7. -/
def engSysExit7 : Engine :=
  { continueWithInput := fun _ => false,
    lexOf := fun _ => LexArg.null,
    fileLexOf := fun _ =>
      LexArg.lexer ("g.py".data)
        (ParseResult.node (CompileResult.fn (ExecResult.exc true 7 []))) }

/-! Helper lemmas shared by the claim theorems. -/

theorem replContinue_snd_length_le (cont : List Char → Bool) :
    ∀ (input : List (Option (List Char))) (line : List Char),
      (replContinue cont line input).2.length ≤ input.length := by
  intro input
  induction input with
  | nil =>
      intro line
      rw [replContinue.eq_def]
      by_cases h : cont line = true <;> simp [h]
  | cons hd tl ih =>
      intro line
      rw [replContinue.eq_def]
      by_cases h : cont line = true
      · simp only [h, if_true]
        cases hd with
        | none => exact Nat.le_succ _
        | some line2 =>
            simp only [List.length_cons]
            exact Nat.le_trans (ih _) (Nat.le_succ _)
      · simp [h]

theorem replContinue_of_not_cont (cont : List Char → Bool) (line : List Char)
    (input : List (Option (List Char))) (h : cont line = false) :
    replContinue cont line input = (line, input) := by
  rw [replContinue.eq_def]
  simp [h]

theorem replContinue_none (cont : List Char → Bool) (line : List Char)
    (rest : List (Option (List Char))) (h : cont line = true) :
    replContinue cont line (none :: rest) = (line, rest) := by
  rw [replContinue.eq_def]
  simp [h]

theorem replContinue_some (cont : List Char → Bool) (line line2 : List Char)
    (rest : List (Option (List Char))) (h : cont line = true) :
    replContinue cont line (some line2 :: rest) =
      replContinue cont (strjoin line 10 line2) rest := by
  conv_lhs => rw [replContinue.eq_def]
  simp [h]

theorem do_repl_nil (eng : Engine) (st : VMState) :
    do_repl eng st [] = (st, []) := by
  rw [do_repl.eq_def]
  by_cases h : st.should_exit = true <;> simp [h]

theorem do_repl_none (eng : Engine) (st : VMState)
    (rest : List (Option (List Char))) :
    do_repl eng st (none :: rest) = (st, []) := by
  rw [do_repl.eq_def]
  by_cases h : st.should_exit = true <;> simp [h]

theorem do_repl_exiting (eng : Engine) (st : VMState)
    (input : List (Option (List Char))) (h : st.should_exit = true) :
    do_repl eng st input = (st, []) := by
  rw [do_repl.eq_def]
  simp [h]

theorem do_repl_cons_quit (eng : Engine) (st : VMState) (line : List Char)
    (rest : List (Option (List Char)))
    (hse : st.should_exit = false)
    (hq : (replContinue eng.continueWithInput line rest).1 = "quit".data) :
    do_repl eng st (some line :: rest) =
      ({ st with should_exit := true }, [ReplEvent.quitMatched]) := by
  rw [do_repl.eq_def]
  simp [hse, hq]

theorem do_repl_cons_exec (eng : Engine) (st : VMState) (line : List Char)
    (rest : List (Option (List Char)))
    (hse : st.should_exit = false)
    (hnq : (replContinue eng.continueWithInput line rest).1 ≠ "quit".data) :
    do_repl eng st (some line :: rest) =
      ((do_repl eng
          (execute_from_lexer (eng.lexOf (replContinue eng.continueWithInput line rest).1)
            InputKind.singleInput true st).state
          (replContinue eng.continueWithInput line rest).2).1,
        ReplEvent.driverCall (replContinue eng.continueWithInput line rest).1
            (execute_from_lexer (eng.lexOf (replContinue eng.continueWithInput line rest).1)
              InputKind.singleInput true st)
          :: (do_repl eng
              (execute_from_lexer (eng.lexOf (replContinue eng.continueWithInput line rest).1)
                InputKind.singleInput true st).state
              (replContinue eng.continueWithInput line rest).2).2) := by
  conv_lhs => rw [do_repl.eq_def]
  simp [hse, hnq]

theorem execute_from_lexer_state (lex : LexArg) (k : InputKind) (rp : Bool)
    (st : VMState) :
    (execute_from_lexer lex k rp st).state = st ∨
      (execute_from_lexer lex k rp st).state.should_exit = true := by
  cases lex with
  | null => exact Or.inl rfl
  | lexer name parsed =>
    cases parsed with
    | null k2 => exact Or.inl rfl
    | node compiled =>
      cases compiled with
      | err => exact Or.inl rfl
      | fn exec =>
        cases exec with
        | ok => exact Or.inl rfl
        | exc isSE v rendered =>
          cases isSE with
          | false => exact Or.inl rfl
          | true => exact Or.inr rfl

theorem do_repl_exit_val_zero (eng : Engine) :
    ∀ (n : Nat) (input : List (Option (List Char))), input.length ≤ n →
      ∀ (st : VMState), st.exit_val = 0 →
        (∀ ev ∈ (do_repl eng st input).2, ev.requestedExit = false) →
        (do_repl eng st input).1.exit_val = 0 := by
  intro n
  induction n with
  | zero =>
      intro input hlen st hev _
      have hi : input = [] := List.length_eq_zero.mp (Nat.le_zero.mp hlen)
      rw [hi, do_repl_nil]
      exact hev
  | succ n ih =>
      intro input hlen st hev hreq
      match input with
      | [] =>
          rw [do_repl_nil]
          exact hev
      | none :: rest =>
          rw [do_repl_none]
          exact hev
      | some line :: rest =>
          by_cases hse : st.should_exit = true
          · rw [do_repl_exiting eng st _ hse]
            exact hev
          · have hse' : st.should_exit = false := Bool.not_eq_true _ ▸ (eq_false_of_ne_true hse)
            by_cases hq : (replContinue eng.continueWithInput line rest).1 = "quit".data
            · rw [do_repl_cons_quit eng st line rest hse' hq]
              exact hev
            · rw [do_repl_cons_exec eng st line rest hse' hq]
              rw [do_repl_cons_exec eng st line rest hse' hq] at hreq
              have hhead := hreq _ (List.mem_cons_self _ _)
              have hstate : (execute_from_lexer
                  (eng.lexOf (replContinue eng.continueWithInput line rest).1)
                  InputKind.singleInput true st).state = st := by
                rcases execute_from_lexer_state
                    (eng.lexOf (replContinue eng.continueWithInput line rest).1)
                    InputKind.singleInput true st with h | h
                · exact h
                · exact absurd h (by simpa [ReplEvent.requestedExit] using hhead)
              have hlen2 : (replContinue eng.continueWithInput line rest).2.length ≤ n := by
                have h1 := replContinue_snd_length_le eng.continueWithInput rest line
                have h2 : rest.length ≤ n := Nat.le_of_succ_le_succ hlen
                exact Nat.le_trans h1 h2
              refine ih _ hlen2 _ (by rw [hstate]; exact hev) ?_
              intro ev hmem
              exact hreq ev (List.mem_cons_of_mem _ hmem)

/-! Claim theorems. -/

/-- C7: for every SourceUnit whose parse stage fails, `execute_from_lexer`
prints the parse diagnostic, frees the lexer, runs neither the compile nor
the execute stage, and hands the failure back to its caller as the ordinary
return value 1 of a total function — no native control-flow signal escapes
and the globals are untouched. -/
theorem parse_error_contained (name : List Char) (k : Nat) (kind : InputKind)
    (rp : Bool) (st : VMState) :
    execute_from_lexer (LexArg.lexer name (ParseResult.null k)) kind rp st =
      { ret := 1, state := st,
        effects := [Effect.showParseException k, Effect.lexerFree] }
    ∧ Effect.compileStage ∉
        (execute_from_lexer (LexArg.lexer name (ParseResult.null k)) kind rp st).effects
    ∧ Effect.executeStage ∉
        (execute_from_lexer (LexArg.lexer name (ParseResult.null k)) kind rp st).effects := by
  refine ⟨rfl, ?_, ?_⟩ <;> simp [execute_from_lexer]

/-- C8: a NULL lexer makes `execute_from_lexer` return the generic failure
code 1 immediately, with no pipeline stage run and an empty effect trace —
distinct from the trace of any parse-error run, which shows a parse
diagnostic. -/
theorem null_lexer_generic_failure (kind : InputKind) (rp : Bool) (st : VMState)
    (name : List Char) (k : Nat) :
    execute_from_lexer LexArg.null kind rp st =
      { ret := 1, state := st, effects := [] }
    ∧ (execute_from_lexer LexArg.null kind rp st).effects ≠
        (execute_from_lexer (LexArg.lexer name (ParseResult.null k)) kind rp st).effects := by
  exact ⟨rfl, by simp [execute_from_lexer]⟩

/-- C10: `execute_from_lexer` returns exactly 0 or 1 on every input; a
SystemExit caught in the execute stage also returns 1, the same code as
errors, and the requested status reaches the caller only through the
`should_exit`/`exit_val` globals. -/
theorem driver_return_code_binary (lex : LexArg) (kind : InputKind) (rp : Bool)
    (st : VMState) (name rendered : List Char) (v : Int) :
    ((execute_from_lexer lex kind rp st).ret = 0 ∨
      (execute_from_lexer lex kind rp st).ret = 1)
    ∧ (execute_from_lexer
        (LexArg.lexer name (ParseResult.node (CompileResult.fn (ExecResult.exc true v rendered))))
        kind rp st).ret = 1
    ∧ (execute_from_lexer
        (LexArg.lexer name (ParseResult.node (CompileResult.fn (ExecResult.exc true v rendered))))
        kind rp st).state = { should_exit := true, exit_val := uintOfInt v } := by
  refine ⟨?_, rfl, rfl⟩
  cases lex with
  | null => exact Or.inr rfl
  | lexer nm parsed =>
    cases parsed with
    | null k2 => exact Or.inr rfl
    | node compiled =>
      cases compiled with
      | err => exact Or.inr rfl
      | fn exec =>
        cases exec with
        | ok => exact Or.inl rfl
        | exc isSE v2 r2 =>
          cases isSE with
          | false => exact Or.inr rfl
          | true => exact Or.inr rfl

/-- C9: appending a continuation line `L` to the buffered statement `B`
builds `strjoin B newline L`, which is exactly `B`, a single newline
character, then `L`; the terminating NUL is written at exactly that length,
and this is precisely the buffer the inner REPL loop continues with. -/
theorem continuation_append_newline (cont : List Char → Bool) (B L : List Char)
    (rest : List (Option (List Char))) (hc : cont B = true) :
    strjoin B 10 L = B ++ '\n' :: L
    ∧ strjoinNulIndex B 10 L = (strjoin B 10 L).length
    ∧ (strjoin B 10 L).length = B.length + 1 + L.length
    ∧ replContinue cont B (some L :: rest) =
        replContinue cont (strjoin B 10 L) rest := by
  have hch : Char.ofNat 10 = '\n' := by decide
  have h1 : strjoin B 10 L = B ++ '\n' :: L := by
    simp [strjoin, hch]
  have h3 : (strjoin B 10 L).length = B.length + 1 + L.length := by
    rw [h1]
    simp only [List.length_append, List.length_cons]
    omega
  have h2 : strjoinNulIndex B 10 L = (strjoin B 10 L).length := by
    rw [h3]
    simp only [strjoinNulIndex]
    norm_num
  exact ⟨h1, h2, h3, replContinue_some cont B L rest hc⟩

/-- C9 witness at concrete strings. -/
theorem continuation_append_newline_witness :
    strjoin ("a".data) 10 ("b".data) = ("a".data) ++ '\n' :: ("b".data)
    ∧ strjoinNulIndex ("a".data) 10 ("b".data) =
        (strjoin ("a".data) 10 ("b".data)).length
    ∧ (strjoin ("a".data) 10 ("b".data)).length =
        ("a".data).length + 1 + ("b".data).length
    ∧ replContinue (fun _ => true) ("a".data) (some ("b".data) :: []) =
        replContinue (fun _ => true) (strjoin ("a".data) 10 ("b".data)) [] :=
  continuation_append_newline (fun _ => true) ("a".data) ("b".data) [] rfl

/-- C3: when the completed buffered statement is exactly `quit`, the REPL
sets the terminated flag and stops without calling the execution driver, and
an interactive `main` run whose first completed statement is `quit` exits
with process status 0. -/
theorem quit_sentinel_terminates_session (eng : Engine) (st : VMState)
    (rest : List (Option (List Char))) (prog : List Char)
    (hq : eng.continueWithInput ("quit".data) = false)
    (hse : st.should_exit = false) (hev : st.exit_val = 0) :
    do_repl eng st (some ("quit".data) :: rest) =
      ({ should_exit := true, exit_val := 0 }, [ReplEvent.quitMatched])
    ∧ main eng [prog] (some ("quit".data) :: rest) =
        some { exitStatus := 0, pressAnyKey := false,
               sysPath := [[], defaultPathEntry], sysArgv := [],
               replEvents := [ReplEvent.quitMatched] } := by
  have hrc := replContinue_of_not_cont eng.continueWithInput ("quit".data) rest hq
  have h1 : ∀ (st' : VMState), st'.should_exit = false → st'.exit_val = 0 →
      do_repl eng st' (some ("quit".data) :: rest) =
        ({ should_exit := true, exit_val := 0 }, [ReplEvent.quitMatched]) := by
    intro st' hs1 hs2
    rw [do_repl_cons_quit eng st' _ rest hs1 (by rw [hrc])]
    have hrec : ({ st' with should_exit := true } : VMState) =
        { should_exit := true, exit_val := 0 } := by
      cases st'
      simp_all
    rw [hrec]
  refine ⟨h1 st hse hev, ?_⟩
  simp only [main]
  rw [h1 initState rfl rfl]
  simp

/-- C3 witness: a concrete interactive session whose sole input line is
`quit`. -/
theorem quit_sentinel_terminates_session_witness :
    do_repl engTriv initState (some ("quit".data) :: []) =
      ({ should_exit := true, exit_val := 0 }, [ReplEvent.quitMatched])
    ∧ main engTriv [("p".data)] (some ("quit".data) :: []) =
        some { exitStatus := 0, pressAnyKey := false,
               sysPath := [[], defaultPathEntry], sysArgv := [],
               replEvents := [ReplEvent.quitMatched] } :=
  quit_sentinel_terminates_session engTriv initState [] ("p".data) rfl rfl rfl

/-- C6: an interactive-mode `main` run exits with process status 0 whenever
no driver call of the session recorded an ExitRequested outcome; in
particular sessions whose statements only raised ordinary uncaught
exceptions exit 0. -/
theorem interactive_exit_status_zero (eng : Engine) (prog : List Char)
    (input : List (Option (List Char))) (out : MainOutcome)
    (hrun : main eng [prog] input = some out)
    (hnoexit : ∀ ev ∈ out.replEvents, ev.requestedExit = false) :
    out.exitStatus = 0 := by
  have hmain : main eng [prog] input =
      some { exitStatus := if (do_repl eng initState input).1.should_exit
               then ((do_repl eng initState input).1.exit_val : Int) else 0,
             pressAnyKey := false,
             sysPath := [[], defaultPathEntry], sysArgv := [],
             replEvents := (do_repl eng initState input).2 } := by
    simp [main]
  rw [hmain] at hrun
  have he := Option.some.inj hrun
  subst he
  have hz := do_repl_exit_val_zero eng input.length input (Nat.le_refl _) initState rfl
    (by simpa using hnoexit)
  by_cases hb : (do_repl eng initState input).1.should_exit = true
  · simp [hb, hz]
  · simp [hb]

/-- C6 witness: the empty interactive session exits 0. -/
theorem interactive_exit_status_zero_witness :
    ({ exitStatus := 0, pressAnyKey := false, sysPath := [[], defaultPathEntry],
       sysArgv := [], replEvents := [] } : MainOutcome).exitStatus = 0 := by
  refine interactive_exit_status_zero engTriv ("p".data) [] _ ?_ ?_
  · simp [main, do_repl_nil, initState]
  · intro ev hev
    simp at hev

/-- C1 counterexample: with the completeness check asking for more input
after the single line "x" and the continuation prompt returning NULL,
`do_repl` does not abandon the buffer — the session's event trace shows the
partial statement "x" submitted to the execution driver. -/
theorem repl_eof_partial_statement_submitted :
    (do_repl engIncompleteX initState [some ("x".data), none]).2 =
      [ReplEvent.driverCall ("x".data)
        { ret := 1, state := initState, effects := [] }] := by
  have hc : engIncompleteX.continueWithInput ("x".data) = true := by decide
  have hrc : replContinue engIncompleteX.continueWithInput ("x".data) [none] =
      ("x".data, []) := replContinue_none _ _ _ hc
  have hnq : (replContinue engIncompleteX.continueWithInput ("x".data) [none]).1 ≠
      "quit".data := by
    rw [hrc]
    decide
  rw [do_repl_cons_exec engIncompleteX initState ("x".data) [none] rfl hnq]
  simp only [hrc]
  simp [engIncompleteX, execute_from_lexer, do_repl_nil]

/-- C1 amended: if input is exhausted while reading a continuation line, the
continuation loop merely stops and the partial buffered statement is treated
as complete — it is compared with the quit sentinel and, when different,
submitted to the execution driver, after which the loop awaits a fresh first
line on the remaining stream. -/
theorem repl_eof_mid_continuation_completes (eng : Engine) (st : VMState)
    (line : List Char) (rest : List (Option (List Char)))
    (hse : st.should_exit = false)
    (hc : eng.continueWithInput line = true)
    (hnq : line ≠ "quit".data) :
    do_repl eng st (some line :: none :: rest) =
      ((do_repl eng
          (execute_from_lexer (eng.lexOf line) InputKind.singleInput true st).state
          rest).1,
        ReplEvent.driverCall line
            (execute_from_lexer (eng.lexOf line) InputKind.singleInput true st)
          :: (do_repl eng
              (execute_from_lexer (eng.lexOf line) InputKind.singleInput true st).state
              rest).2) := by
  have hrc : replContinue eng.continueWithInput line (none :: rest) = (line, rest) :=
    replContinue_none _ _ _ hc
  rw [do_repl_cons_exec eng st line (none :: rest) hse (by rw [hrc]; exact hnq)]
  rw [hrc]

/-- C1 amended witness at a concrete session. -/
theorem repl_eof_mid_continuation_completes_witness :
    do_repl engIncompleteX initState (some ("x".data) :: none :: []) =
      ((do_repl engIncompleteX
          (execute_from_lexer (engIncompleteX.lexOf ("x".data)) InputKind.singleInput
            true initState).state []).1,
        ReplEvent.driverCall ("x".data)
            (execute_from_lexer (engIncompleteX.lexOf ("x".data)) InputKind.singleInput
              true initState)
          :: (do_repl engIncompleteX
              (execute_from_lexer (engIncompleteX.lexOf ("x".data)) InputKind.singleInput
                true initState).state []).2) :=
  repl_eof_mid_continuation_completes engIncompleteX initState ("x".data) []
    rfl (by decide) (by decide)

/-- C2 counterexample: a file-mode run whose execute stage raises
SystemExit(5) makes the process exit with status 5, but the "Press any key"
acknowledgment still runs — it is not skipped for an ExitRequested
outcome. -/
theorem file_systemexit_acknowledgment_not_skipped :
    (main engSysExit5 [("p".data), ("/a/f.py".data)] []).map
        (fun o => (o.exitStatus, o.pressAnyKey)) = some (5, true) := by
  decide

/-- C2 amended: a file-mode run whose execute stage raises SystemExit with
value N (0 ≤ N < 2^32) makes the process exit with status N, but the "Press
any key" acknowledgment is performed, not skipped: `main` runs it for every
file-mode run, because the driver reports SystemExit with the same return
code 1 as generic failures. -/
theorem file_systemexit_status_with_acknowledgment (eng : Engine)
    (prog script dir name rendered : List Char) (restArgs : List (List Char))
    (input : List (Option (List Char))) (v : Int)
    (hdir : scriptDir script = some dir)
    (hlex : eng.fileLexOf script =
      LexArg.lexer name (ParseResult.node (CompileResult.fn (ExecResult.exc true v rendered))))
    (hv0 : 0 ≤ v) (hv : v < 2 ^ 32) :
    (main eng (prog :: script :: restArgs) input).map
        (fun o => (o.exitStatus, o.pressAnyKey)) = some (v, true) := by
  have huv : ((uintOfInt v : Nat) : Int) = v := by
    unfold uintOfInt
    rw [Int.toNat_of_nonneg (Int.emod_nonneg v (by norm_num))]
    exact Int.emod_eq_of_lt hv0 hv
  simp [main, hdir, do_file, hlex, execute_from_lexer, huv]

/-- C2 amended witness: SystemExit(7) raised from "/b/g.py". -/
theorem file_systemexit_status_with_acknowledgment_witness :
    (main engSysExit7 [("p".data), ("/b/g.py".data)] []).map
        (fun o => (o.exitStatus, o.pressAnyKey)) = some (7, true) :=
  file_systemexit_status_with_acknowledgment engSysExit7 ("p".data) ("/b/g.py".data)
    ("/b".data) ("g.py".data) [] [] [] 7 (by decide) rfl (by norm_num) (by norm_num)

/-- C4: for a separator-free script path the code's `strrchr`-based
extraction computes `p - argv[a]` with `p = NULL`, which has no defined
value — modelled as `none` — whereas the specified extraction yields the
empty string; a `main` run on such an argument list is therefore
undefined rather than well-defined. -/
theorem scriptDir_no_separator_undefined :
    scriptDir ("script.py".data) = none
    ∧ scriptDirSpec ("script.py".data) = []
    ∧ (∀ (dir : List Char), scriptDir ("/a/b/c.script".data) = some dir → dir = scriptDirSpec ("/a/b/c.script".data))
    ∧ main engTriv [("prog".data), ("script.py".data)] [] = none := by
  decide

/-- C5: with at least one argument after the program name, `sys.path[0]`
becomes the script path's text before its last separator and `sys.argv` is
all arguments from the script path onward, in original order; concretely,
["prog", "/a/b/c.script", "x", "y"] gives sys.path[0] = "/a/b" and sys.argv
= ["/a/b/c.script", "x", "y"]. -/
theorem script_args_and_path_exposed (eng : Engine) (prog script dir : List Char)
    (restArgs : List (List Char)) (input : List (Option (List Char)))
    (hdir : scriptDir script = some dir) :
    (main eng (prog :: script :: restArgs) input).map
        (fun o => (o.sysPath, o.sysArgv)) =
      some ([dir, defaultPathEntry], script :: restArgs)
    ∧ (main eng (("prog".data) :: ("/a/b/c.script".data) :: [("x".data), ("y".data)]) input).map
        (fun o => (o.sysPath, o.sysArgv)) =
      some ([("/a/b".data), defaultPathEntry],
            [("/a/b/c.script".data), ("x".data), ("y".data)]) := by
  constructor
  · simp [main, hdir]
  · have hd2 : scriptDir ("/a/b/c.script".data) = some ("/a/b".data) := by decide
    simp [main, hd2]

/-- C5 witness at the concrete invocation of the claim. -/
theorem script_args_and_path_exposed_witness :
    (main engTriv (("prog".data) :: ("/a/b/c.script".data) :: [("x".data), ("y".data)]) []).map
        (fun o => (o.sysPath, o.sysArgv)) =
      some ([("/a/b".data), defaultPathEntry],
            [("/a/b/c.script".data), ("x".data), ("y".data)])
    ∧ (main engTriv (("prog".data) :: ("/a/b/c.script".data) :: [("x".data), ("y".data)]) []).map
        (fun o => (o.sysPath, o.sysArgv)) =
      some ([("/a/b".data), defaultPathEntry],
            [("/a/b/c.script".data), ("x".data), ("y".data)]) :=
  script_args_and_path_exposed engTriv ("prog".data) ("/a/b/c.script".data) ("/a/b".data)
    [("x".data), ("y".data)] [] (by decide)

end MpNspire
